import Mathlib

/-!
Verification of the structured-outputs client (`src/lib.rs`).

The development shallowly embeds the two components of the library:

* `get_schema` (SchemaDeriver): derives a provider-compatible `Schema` from a
  type descriptor (the fully qualified type name together with the JSON Schema
  document the generator produces for the type), sanitizing the name and
  stripping the `"format"` keyword recursively.
* `query_openai_inner` / `query_openai` (ChatClient): builds a
  `CompletionRequest`, performs one transport round trip (modelled as a
  function from the built request to a transport outcome), checks the HTTP
  status, parses the `CompletionResponse` envelope, and extracts the first
  choice's content.

External collaborators (the schemars generator and recursive transform,
serde_json parsing, reqwest status handling) are not part of the repository's
source; where their behaviour decides a property they are modelled from the
specification's description, and each such definition carries a doc comment
saying so.
-/

/-- JSON documents, mirroring `serde_json::Value`. Objects are ordered lists
of key/value pairs; numbers are modelled as integers (the schema documents and
response envelopes reasoned about here contain no fractional literals). -/
inductive Json where
  | null : Json
  | bool (b : Bool) : Json
  | num (n : Int) : Json
  | str (s : String) : Json
  | arr (elems : List Json) : Json
  | obj (fields : List (String × Json)) : Json

mutual

/-- Does the JSON tree contain, at any depth, an object node having `k` as a
key? This is the property the specification states for `"format"`. -/
def containsKeyDeep (k : String) : Json → Bool
  | .obj fields => containsKeyObj k fields
  | .arr elems => containsKeyArr k elems
  | _ => false

/-- Helper of `containsKeyDeep` for array elements. -/
def containsKeyArr (k : String) : List Json → Bool
  | [] => false
  | j :: tl => containsKeyDeep k j || containsKeyArr k tl

/-- Helper of `containsKeyDeep` for object fields: the key itself may match,
and the value is searched recursively. -/
def containsKeyObj (k : String) : List (String × Json) → Bool
  | [] => false
  | f :: tl => f.1 == k || containsKeyDeep k f.2 || containsKeyObj k tl

end

mutual

/-- Modelled from the spec: the schema transform installed by `get_schema`,
`RecursiveTransform(|schema| schema.remove("format"))` of the external
schemars crate, described by the spec as "recursively walk every object node
of the generated schema, including nodes reached through internal
`$ref`/`$defs` indirection, and strip the `\"format\"` key wherever present",
implemented as a generic tree walk handling objects and arrays uniformly. -/
def stripFormat : Json → Json
  | .obj fields => .obj (stripObj fields)
  | .arr elems => .arr (stripArr elems)
  | j => j

/-- Helper of `stripFormat` for array elements. -/
def stripArr : List Json → List Json
  | [] => []
  | j :: tl => stripFormat j :: stripArr tl

/-- Helper of `stripFormat` for object fields: entries keyed `"format"` are
removed (as `Map::remove` does), all other values are transformed
recursively. -/
def stripObj : List (String × Json) → List (String × Json)
  | [] => []
  | f :: tl =>
    if f.1 == "format" then stripObj tl
    else (f.1, stripFormat f.2) :: stripObj tl

end

/-- Does the root of the document have key `k`? Used for the root-level
`"title"` property. -/
def rootHasKey (k : String) : Json → Bool
  | .obj fields => fields.any (fun f => f.1 == k)
  | _ => false

/-! ## Schema-name sanitization (`get_schema`, lines 21-27 of `src/lib.rs`) -/

/-- Replacement of every occurrence of the two-character pattern `"::"` by
`"_"`, as done by `.replace("::", "_")`: leftmost first, non-overlapping. -/
def replaceColons : List Char → List Char
  | [] => []
  | [c] => [c]
  | c1 :: c2 :: rest =>
    if c1 == ':' && c2 == ':' then '_' :: replaceColons rest
    else c1 :: replaceColons (c2 :: rest)

/-- Replacement of every occurrence of the single character `target` by `'_'`,
as done by `.replace("<", "_")` and `.replace(">", "_")`. -/
def replaceChar (target : Char) : List Char → List Char :=
  List.map (fun c => if c == target then '_' else c)

/-- The name derivation of `get_schema`: the fully qualified type name with
`"::"`, then `"<"`, then `">"` replaced by `"_"`. -/
def sanitizeName (s : String) : String :=
  String.mk (replaceChar '>' (replaceChar '<' (replaceColons s.data)))

/-- A character allowed by the provider's name pattern `^[A-Za-z0-9_-]+$`. -/
def nameChar (c : Char) : Bool :=
  c.isAlpha || c.isDigit || c == '_' || c == '-'

/-- Does `s` match the provider's schema-name pattern `^[A-Za-z0-9_-]+$`? -/
def matchesNameRegex (s : String) : Bool :=
  !s.data.isEmpty && s.data.all nameChar

/-- A character of a fully qualified type name for which the sanitization can
give a guarantee: a regex-allowed character, or one of the replaced
characters `':'`, `'<'`, `'>'`. -/
def sourceChar (c : Char) : Bool :=
  nameChar c || c == ':' || c == '<' || c == '>'

/-- A character possibly remaining after colon replacement: a regex-allowed
character or one of `'<'`, `'>'`. -/
def midChar (c : Char) : Bool :=
  nameChar c || c == '<' || c == '>'

/-- Every `':'` in the list occurs as part of a `"::"` pair (as in Rust path
separators). -/
def colonsPaired : List Char → Bool
  | [] => true
  | [c] => !(c == ':')
  | c1 :: c2 :: rest =>
    if c1 == ':' then c2 == ':' && colonsPaired rest
    else colonsPaired (c2 :: rest)

/-! ## Data model (`Schema`, messages, request/response types, `Config`) -/

/-- The descriptor `get_schema::<T>()` consumes for a reflectable type `T`:
the fully qualified type name rendered by `std::any::type_name::<T>()`, and
the JSON Schema document the generator derives for `T` before the `"format"`
transform. Modelled from the spec: the generator itself is the external
schemars crate; the spec describes its input as "a type descriptor capable of
producing a generic JSON Schema document". -/
structure TypeDescriptor where
  type_name : String
  genSchema : Json

/-- The `Schema` value sent to the provider: a sanitized name, the JSON
Schema document, and the strictness flag. -/
structure Schema where
  name : String
  schema : Json
  strict : Bool

/-- Embedding of `get_schema` (`src/lib.rs` lines 7-34): generate the schema
document with the recursive `"format"`-stripping transform, serialize it, and
derive the name from the type name by replacing `"::"`, `"<"`, `">"` with
`"_"`. Serialization (`serde_json::to_value`) is total in the model, as the
spec declares derivation pure and total. -/
def get_schema (d : TypeDescriptor) : Schema :=
  { name := sanitizeName d.type_name
    schema := stripFormat d.genSchema
    strict := true }

/-- Message roles, `Role` in the source. -/
inductive Role where
  | developer : Role
  | user : Role
  | assistant : Role

/-- A conversation message. -/
structure Message where
  role : Role
  content : String

/-- The `response_format` object of the request; `response_type` is
serialized as `"type"`. -/
structure ResponseFormat where
  response_type : String
  json_schema : Schema

/-- The request body `OpenAIChatCompletionQuery`. -/
structure OpenAIChatCompletionQuery where
  model : String
  messages : List Message
  response_format : ResponseFormat

/-- The assistant message inside a choice. -/
structure ResponseMessage where
  content : String

/-- One element of the response envelope's `choices`. -/
structure Choice where
  message : ResponseMessage

/-- The `CompletionResponse` envelope; other provider fields are ignored by
the deserializer and therefore absent from the model. -/
structure OpenAIChatCompletionResponse where
  choices : List Choice

/-- The process-wide configuration, read once at startup. -/
structure Config where
  api_key : String
  model : String

/-! ## JSON text parsing (modelling `serde_json` / `response.json()`) -/

/-- Skip JSON whitespace. -/
def skipWs : List Char → List Char
  | c :: rest =>
    if c == ' ' || c == '\n' || c == '\t' || c == '\r' then skipWs rest
    else c :: rest
  | [] => []

/-- Consume the exact characters of `s` from the input, or fail. -/
def expectChars (s : String) (input : List Char) : Option (List Char) :=
  if s.data.isPrefixOf input then some (input.drop s.data.length) else none

/-- Value of a list of decimal digits. -/
def digitsVal (l : List Char) : Nat :=
  l.foldl (fun acc c => acc * 10 + (c.toNat - 48)) 0

/-- Modelled from the spec: numeric literal parsing of the external JSON
deserializer, restricted to integer literals — the envelope and error bodies
reasoned about contain no fractional numbers, which are out of the model's
scope (a literal continuing with `.`, `e` or `E` is rejected). -/
def parseNumber (input : List Char) : Option (Json × List Char) :=
  let (neg, rest) :=
    match input with
    | '-' :: r => (true, r)
    | r => (false, r)
  let digits := rest.takeWhile Char.isDigit
  let rest2 := rest.dropWhile Char.isDigit
  if digits.isEmpty then none
  else
    let n : Int := if neg then -(digitsVal digits : Int) else (digitsVal digits : Int)
    match rest2 with
    | c :: _ => if c == '.' || c == 'e' || c == 'E' then none else some (.num n, rest2)
    | [] => some (.num n, rest2)

/-- Modelled from the spec: string-body parsing of the external JSON
deserializer, after the opening quote. Standard single-character escapes are
decoded; `\u` escapes are outside the model's scope. The first argument is
recursion fuel. -/
def parseStringChars : Nat → List Char → Option (List Char × List Char)
  | 0, _ => none
  | _, [] => none
  | Nat.succ fuel, c :: rest =>
    if c == '"' then some ([], rest)
    else if c == '\\' then
      match rest with
      | [] => none
      | e :: rest2 =>
        let dec : Option Char :=
          if e == '"' then some '"'
          else if e == '\\' then some '\\'
          else if e == '/' then some '/'
          else if e == 'n' then some '\n'
          else if e == 't' then some '\t'
          else if e == 'r' then some '\r'
          else if e == 'b' then some (Char.ofNat 8)
          else if e == 'f' then some (Char.ofNat 12)
          else none
        match dec with
        | some d => (parseStringChars fuel rest2).map (fun p => (d :: p.1, p.2))
        | none => none
    else (parseStringChars fuel rest).map (fun p => (c :: p.1, p.2))

mutual

/-- Modelled from the spec: the external JSON deserializer used by
`response.json()` ("parse the body as the `CompletionResponse` envelope").
Parses one JSON value and returns the remaining input; the first argument is
recursion fuel, always at least the input length plus one at top level. -/
def parseValue : Nat → List Char → Option (Json × List Char)
  | 0, _ => none
  | Nat.succ fuel, input =>
    match skipWs input with
    | [] => none
    | c :: rest =>
      if c == 'n' then (expectChars "ull" rest).map (fun r => (Json.null, r))
      else if c == 't' then (expectChars "rue" rest).map (fun r => (Json.bool true, r))
      else if c == 'f' then (expectChars "alse" rest).map (fun r => (Json.bool false, r))
      else if c == '"' then
        (parseStringChars (Nat.succ fuel) rest).map (fun p => (Json.str (String.mk p.1), p.2))
      else if c == '[' then
        match skipWs rest with
        | ']' :: r2 => some (Json.arr [], r2)
        | r2 => (parseElems fuel r2).map (fun p => (Json.arr p.1, p.2))
      else if c == '\x7b' then
        match skipWs rest with
        | '\x7d' :: r2 => some (Json.obj [], r2)
        | r2 => (parseMembers fuel r2).map (fun p => (Json.obj p.1, p.2))
      else if c == '-' || c.isDigit then parseNumber (c :: rest)
      else none

/-- Nonempty comma-separated array elements, up to the closing bracket. -/
def parseElems : Nat → List Char → Option (List Json × List Char)
  | 0, _ => none
  | Nat.succ fuel, input =>
    match parseValue fuel input with
    | none => none
    | some (j, r) =>
      match skipWs r with
      | ',' :: r2 => (parseElems fuel r2).map (fun p => (j :: p.1, p.2))
      | ']' :: r2 => some ([j], r2)
      | _ => none

/-- Nonempty comma-separated object members, up to the closing brace. -/
def parseMembers : Nat → List Char → Option (List (String × Json) × List Char)
  | 0, _ => none
  | Nat.succ fuel, input =>
    match skipWs input with
    | '"' :: r =>
      match parseStringChars (Nat.succ fuel) r with
      | none => none
      | some (key, r2) =>
        match skipWs r2 with
        | ':' :: r3 =>
          match parseValue fuel r3 with
          | none => none
          | some (v, r4) =>
            match skipWs r4 with
            | ',' :: r5 => (parseMembers fuel r5).map (fun p => ((String.mk key, v) :: p.1, p.2))
            | '\x7d' :: r5 => some ([(String.mk key, v)], r5)
            | _ => none
        | _ => none
    | _ => none

end

/-- Parse a whole JSON document: one value, then only whitespace. -/
def jsonParse (s : String) : Option Json :=
  match parseValue (s.data.length + 1) s.data with
  | some (j, rest) => if (skipWs rest).isEmpty then some j else none
  | none => none

/-! ## Envelope deserialization (serde derive for the response types) -/

/-- First field with key `k` in an object's field list. -/
def lookupField (k : String) : List (String × Json) → Option Json
  | [] => none
  | f :: tl => if f.1 == k then some f.2 else lookupField k tl

/-- Modelled from the spec: serde deserialization of `ResponseMessage`
(a struct with one `String` field `content`; unknown fields ignored). -/
def decodeResponseMessage : Json → Except String ResponseMessage
  | .obj fields =>
    match lookupField "content" fields with
    | some (.str s) => .ok { content := s }
    | some _ => .error "invalid type for field content"
    | none => .error "missing field content"
  | _ => .error "invalid type: expected object for message"

/-- Modelled from the spec: serde deserialization of `Choice` (one field
`message`; unknown fields ignored). -/
def decodeChoice : Json → Except String Choice
  | .obj fields =>
    match lookupField "message" fields with
    | some j =>
      match decodeResponseMessage j with
      | .ok m => .ok { message := m }
      | .error e => .error e
    | none => .error "missing field message"
  | _ => .error "invalid type: expected object for choice"

/-- Deserialize each element of the `choices` array. -/
def decodeChoiceList : List Json → Except String (List Choice)
  | [] => .ok []
  | j :: tl =>
    match decodeChoice j with
    | .error e => .error e
    | .ok c =>
      match decodeChoiceList tl with
      | .error e => .error e
      | .ok cs => .ok (c :: cs)

/-- Modelled from the spec: serde deserialization of the
`OpenAIChatCompletionResponse` envelope (one field `choices`, a sequence;
the response's other provider fields are ignored). -/
def decodeCompletionResponse : Json → Except String OpenAIChatCompletionResponse
  | .obj fields =>
    match lookupField "choices" fields with
    | some (.arr elems) =>
      match decodeChoiceList elems with
      | .ok cs => .ok { choices := cs }
      | .error e => .error e
    | some _ => .error "invalid type for field choices"
    | none => .error "missing field choices"
  | _ => .error "invalid type: expected object for completion response"

/-- The behaviour of `response.json::<OpenAIChatCompletionResponse>()`: parse
the body text as JSON, then deserialize the envelope. -/
def parseCompletionResponse (body : String) : Except String OpenAIChatCompletionResponse :=
  match jsonParse body with
  | none => .error "error decoding response body"
  | some j => decodeCompletionResponse j

/-! ## ChatClient (`query_openai_inner` / `query_openai`) -/

/-- What the network did for one request: either the send failed (the `?` on
`send()`), or an HTTP response with a status and a raw body arrived. -/
inductive TransportOutcome where
  | failed (e : String) : TransportOutcome
  | response (status : Nat) (body : String) : TransportOutcome

/-- Status classified as an error by `error_for_status_ref`: client errors
(400-499) and server errors (500-599). -/
def isErrorStatus (status : Nat) : Bool :=
  400 ≤ status && status ≤ 599

/-- Modelled from the spec: the display of the transport's status error
(interpolated as `{e}` in the `anyhow::bail!` format string), carrying the
HTTP status code. -/
def statusErrorText (status : Nat) : String :=
  "HTTP status error (" ++ Nat.repr status
    ++ ") for url (https://api.openai.com/v1/chat/completions)"

/-- The error message built by `anyhow::bail!("Error querying api: \x7be\x7d\nRaw
output:\n\x7b\x7d", response.text())`: the status display followed by the raw
response body, verbatim. -/
def upstreamErrorMessage (status : Nat) (body : String) : String :=
  "Error querying api: " ++ statusErrorText status ++ "\nRaw output:\n" ++ body

/-- The request the client builds (`src/lib.rs` lines 67-75): the process-wide
configured model, the caller's messages unchanged, and a `response_format`
with type `"json_schema"` embedding the supplied schema. -/
def mkQuery (cfg : Config) (messages : List Message) (schema : Schema) :
    OpenAIChatCompletionQuery :=
  { model := cfg.model
    messages := messages
    response_format := { response_type := "json_schema", json_schema := schema } }

/-- Handling of the transport outcome (`src/lib.rs` lines 77-91): a send
failure propagates as an error; a non-success status becomes an error message
carrying the status and the verbatim raw body; otherwise the body is parsed
as the envelope. -/
def processResponse : TransportOutcome → Except String OpenAIChatCompletionResponse
  | .failed e => .error e
  | .response status body =>
    if isErrorStatus status then .error (upstreamErrorMessage status body)
    else parseCompletionResponse body

/-- Embedding of `query_openai_inner`: build the request and run one
request/response cycle. The transport is a parameter mapping the built
request to its outcome. -/
def query_openai_inner (cfg : Config)
    (transport : OpenAIChatCompletionQuery → TransportOutcome)
    (messages : List Message) (schema : Schema) :
    Except String OpenAIChatCompletionResponse :=
  processResponse (transport (mkQuery cfg messages schema))

/-- Outcome of a call to `query_openai`: a value, or a process panic with the
`expect` message (`Result::expect` appends the error's rendering to its
message). -/
inductive RunResult (T : Type) where
  | ok (val : T) : RunResult T
  | panicked (msg : String) : RunResult T

/-- Embedding of `query_openai` (`src/lib.rs` lines 39-60): derive the schema
for the target type, run the inner query, `expect` the result, `expect` the
first choice, and `expect` the decoded content. The caller-type
deserialization `serde_json::from_str::<T>` is the `decode` parameter. -/
def query_openai {T : Type} (cfg : Config)
    (transport : OpenAIChatCompletionQuery → TransportOutcome)
    (d : TypeDescriptor) (decode : String → Option T)
    (messages : List Message) : RunResult T :=
  match query_openai_inner cfg transport messages (get_schema d) with
  | .error e => .panicked ("Response from OpenAI: " ++ e)
  | .ok resp =>
    match resp.choices.head? with
    | none => .panicked "Response from OpenAI"
    | some c =>
      match decode c.message.content with
      | none => .panicked "Correctly structured parseable response"
      | some t => .ok t

/-! ## Concrete fixtures used by witnesses and counterexamples -/

/-- A concrete configuration (the spec's two required startup values). -/
def cfgExample : Config :=
  { api_key := "test-api-key", model := "o3-mini-2025-01-31" }

/-- The conversation of scenario A/`test_simple_schema`. -/
def messagesExample : List Message :=
  [{ role := Role.user, content := "Hello, world!" }]

/-- Scenario D body: success status with an empty `choices` array. -/
def scenarioDBody : String := "\x7b\"choices\": []\x7d"

/-- Scenario C body: the provider's schema-rejection error envelope. -/
def scenarioCBody : String :=
  "\x7b\"error\":\x7b\"message\":\"format is not permitted\"\x7d\x7d"

/-- Descriptor of the repository's test type `SimpleResponseSchema`: its
fully qualified name, and a generated document of the shape the spec
describes (field names, types, nesting, descriptions, a root title, and the
numeric `"format"` annotations the generator adds for 64-bit integers and
doubles). -/
def descSimple : TypeDescriptor :=
  { type_name := "llm_structured_outputs::tests::SimpleResponseSchema"
    genSchema := Json.obj
      [ ("$schema", Json.str "https://json-schema.org/draft/2020-12/schema")
      , ("title", Json.str "SimpleResponseSchema")
      , ("type", Json.str "object")
      , ("properties", Json.obj
          [ ("summary", Json.obj
              [ ("description", Json.str "Summary of the text in two extremely short paragraphs")
              , ("type", Json.str "array")
              , ("items", Json.obj [("type", Json.str "string")]) ])
          , ("tone", Json.obj
              [ ("description", Json.str "Tone of the text")
              , ("type", Json.str "string") ])
          , ("word_count", Json.obj
              [ ("description", Json.str "Number of words in the text")
              , ("type", Json.str "integer")
              , ("format", Json.str "int64") ])
          , ("flair", Json.obj
              [ ("description", Json.str "Flair from 0 to 1")
              , ("type", Json.str "number")
              , ("format", Json.str "double") ]) ])
      , ("required", Json.arr
          [Json.str "summary", Json.str "tone", Json.str "word_count", Json.str "flair"])
      ] }

/-- Descriptor of a reflectable type with two generic parameters: the
rendering of `std::any::type_name` for `HashMap<String, i32>`, whose comma
and space separate the generic arguments. -/
def descHashMap : TypeDescriptor :=
  { type_name := "std::collections::hash::map::HashMap<alloc::string::String, i32>"
    genSchema := Json.obj [("type", Json.str "object")] }

/-- Descriptor of a type `B` inside a module `a`. -/
def descModuleB : TypeDescriptor :=
  { type_name := "llm_structured_outputs::a::B"
    genSchema := Json.obj [("type", Json.str "object")] }

/-- Descriptor of a top-level type named `a_B` in the same crate: a fully
qualified name different from `descModuleB`'s. -/
def descFlatB : TypeDescriptor :=
  { type_name := "llm_structured_outputs::a_B"
    genSchema := Json.obj [("type", Json.str "object")] }

/-- A decoder for a caller target type that rejects every content string,
standing in for `serde_json::from_str::<T>` on undecodable text. -/
def decodeNothing : String → Option Unit := fun _ => none

/-! ## Helper lemmas -/

mutual

/-- After the transform, no object node at any depth has key `"format"`. -/
theorem stripFormat_noFormat (j : Json) :
    containsKeyDeep "format" (stripFormat j) = false := by
  cases j with
  | null => rfl
  | bool b => rfl
  | num n => rfl
  | str s => rfl
  | arr elems => simpa [stripFormat, containsKeyDeep] using stripArr_noFormat elems
  | obj fields => simpa [stripFormat, containsKeyDeep] using stripObj_noFormat fields

/-- Array version of `stripFormat_noFormat`. -/
theorem stripArr_noFormat (l : List Json) :
    containsKeyArr "format" (stripArr l) = false := by
  cases l with
  | nil => rfl
  | cons j tl =>
    simp [stripArr, containsKeyArr, stripFormat_noFormat j, stripArr_noFormat tl]

/-- Object version of `stripFormat_noFormat`. -/
theorem stripObj_noFormat (fs : List (String × Json)) :
    containsKeyObj "format" (stripObj fs) = false := by
  cases fs with
  | nil => rfl
  | cons f tl =>
    by_cases h : f.1 == "format"
    · simpa [stripObj, h] using stripObj_noFormat tl
    · simp [stripObj, h, containsKeyObj, stripFormat_noFormat f.2, stripObj_noFormat tl]

end

/-- The transform touches no key other than `"format"` at the root: root-level
presence of any other key is preserved. -/
theorem stripObj_keys_ne (k : String) (hk : ¬ k = "format") (fs : List (String × Json)) :
    (stripObj fs).any (fun f => f.1 == k) = fs.any (fun f => f.1 == k) := by
  induction fs with
  | nil => rfl
  | cons f tl ih =>
    by_cases h : f.1 == "format"
    · have hf : f.1 = "format" := by simpa using h
      have hfk : ¬ f.1 = k := by
        rw [hf]
        exact fun hjk => hk hjk.symm
      simp [stripObj, h, List.any_cons, ih, hfk]
    · simp [stripObj, h, List.any_cons, ih]

/-- Root-level keys other than `"format"` survive `stripFormat` exactly. -/
theorem rootHasKey_stripFormat (k : String) (hk : ¬ k = "format") (j : Json) :
    rootHasKey k (stripFormat j) = rootHasKey k j := by
  cases j with
  | obj fields => simpa [stripFormat, rootHasKey] using stripObj_keys_ne k hk fields
  | null => rfl
  | bool b => rfl
  | num n => rfl
  | str s => rfl
  | arr elems => rfl

/-- Colon replacement of a paired, well-formed name yields only regex
characters or the still-to-be-replaced `'<'`, `'>'`. -/
theorem replaceColons_chars : ∀ l : List Char, colonsPaired l = true →
    (∀ c ∈ l, sourceChar c = true) → ∀ c ∈ replaceColons l, midChar c = true
  | [], _, _ => by simp [replaceColons]
  | [c], hp, hs => by
    intro x hx
    have hc : sourceChar c = true := hs c (by simp)
    have hcc : ¬ c = ':' := by simpa [colonsPaired] using hp
    simp [replaceColons] at hx
    subst hx
    simp only [sourceChar, Bool.or_eq_true, beq_iff_eq] at hc
    simp only [midChar, Bool.or_eq_true, beq_iff_eq]
    tauto
  | c1 :: c2 :: rest, hp, hs => by
    intro x hx
    by_cases h1 : c1 = ':'
    · have hp2 : c2 = ':' ∧ colonsPaired rest = true := by
        simpa [colonsPaired, h1] using hp
      have hrec := replaceColons_chars rest hp2.2
        (fun c hc => hs c (by simp [hc]))
      rw [show replaceColons (c1 :: c2 :: rest) = '_' :: replaceColons rest by
        simp [replaceColons, h1, hp2.1]] at hx
      rcases List.mem_cons.mp hx with h | h
      · subst h
        simp [midChar, nameChar]
      · exact hrec x h
    · have hp2 : colonsPaired (c2 :: rest) = true := by
        simpa [colonsPaired, h1] using hp
      have hrec := replaceColons_chars (c2 :: rest) hp2
        (fun c hc => hs c (List.mem_cons_of_mem c1 hc))
      rw [show replaceColons (c1 :: c2 :: rest) = c1 :: replaceColons (c2 :: rest) by
        simp [replaceColons, h1]] at hx
      rcases List.mem_cons.mp hx with h | h
      · subst h
        have hc : sourceChar x = true := hs x (by simp)
        simp only [sourceChar, Bool.or_eq_true, beq_iff_eq] at hc
        simp only [midChar, Bool.or_eq_true, beq_iff_eq]
        tauto
      · exact hrec x h
termination_by l => l.length

/-- Colon replacement never empties a nonempty name. -/
theorem replaceColons_ne_nil : ∀ l : List Char, l ≠ [] → replaceColons l ≠ []
  | [], h => absurd rfl h
  | [c], _ => by simp [replaceColons]
  | c1 :: c2 :: rest, _ => by
    by_cases h : c1 == ':' && c2 == ':'
    · simp [replaceColons, h]
    · simp [replaceColons, h]

/-- Character replacement maps the replaced character to `'_'` and keeps the
others, so any predicate holding of `'_'` and of the kept characters holds of
the output. -/
theorem replaceChar_chars (t : Char) (p : Char → Bool) (hu : p '_' = true)
    (l : List Char) (h : ∀ c ∈ l, p c = true ∨ c = t) :
    ∀ c ∈ replaceChar t l, p c = true := by
  intro x hx
  simp only [replaceChar, List.mem_map] at hx
  obtain ⟨c0, hc0, heq⟩ := hx
  by_cases hct : c0 = t
  · simp [hct] at heq
    rw [← heq]
    exact hu
  · simp [hct] at heq
    rw [← heq]
    rcases h c0 hc0 with hp | habs
    · exact hp
    · exact absurd habs hct

/-! ## Claims -/

/-- Claim C1: for every reflectable type, the JSON document of the `Schema`
returned by `get_schema` contains no object node with the key `"format"` at
any depth, including nodes reached through internal indirection (the
transform is a uniform tree walk, so `$defs` nodes are covered like any
other). -/
theorem claim_c1_schema_never_contains_format (d : TypeDescriptor) :
    containsKeyDeep "format" (get_schema d).schema = false := by
  simpa [get_schema] using stripFormat_noFormat d.genSchema

/-- Claim C2 counterexample: with a success status and the scenario D body
(an empty `choices` array), `query_openai` panics through
`.expect("Response from OpenAI")` instead of returning a protocol error to
the caller. -/
theorem claim_c2_counterexample :
    query_openai cfgExample (fun _ => TransportOutcome.response 200 scenarioDBody)
      descSimple decodeNothing messagesExample
      = RunResult.panicked "Response from OpenAI" := rfl

/-- Claim C2 amended: for every message sequence and schema, when the HTTP
response has a success status and the envelope parses with an empty `choices`
array, `query_openai` panics with the `expect` message "Response from OpenAI"
at the absent first choice; it does not return a default value and does not
dereference an absent element. -/
theorem claim_c2_empty_choices_panics (cfg : Config) (d : TypeDescriptor) {T : Type}
    (decode : String → Option T) (messages : List Message) (status : Nat) (body : String)
    (hstatus : isErrorStatus status = false)
    (hbody : parseCompletionResponse body = Except.ok { choices := [] }) :
    query_openai cfg (fun _ => TransportOutcome.response status body) d decode messages
      = RunResult.panicked "Response from OpenAI" := by
  simp [query_openai, query_openai_inner, processResponse, hstatus, hbody]

/-- Claim C2 witness: the amended statement at the scenario D input. -/
theorem claim_c2_empty_choices_panics_witness :
    isErrorStatus 200 = false ∧
      parseCompletionResponse scenarioDBody = Except.ok { choices := [] } ∧
      query_openai cfgExample (fun _ => TransportOutcome.response 200 scenarioDBody)
        descSimple decodeNothing messagesExample
        = RunResult.panicked "Response from OpenAI" :=
  ⟨rfl, rfl, claim_c2_empty_choices_panics cfgExample descSimple decodeNothing
    messagesExample 200 scenarioDBody rfl rfl⟩

/-- Claim C3 counterexample: the reflectable type
`HashMap<String, i32>` (two generic parameters) renders with a comma and a
space, both of which survive the replacement of `"::"`, `"<"`, `">"`, so the
derived schema name fails the pattern `^[A-Za-z0-9_-]+$`. -/
theorem claim_c3_counterexample :
    (get_schema descHashMap).name
        = "std_collections_hash_map_HashMap_alloc_string_String, i32_" ∧
      matchesNameRegex (get_schema descHashMap).name = false :=
  ⟨rfl, rfl⟩

/-- Claim C3 amended: the schema name matches `^[A-Za-z0-9_-]+$` for every
type whose fully qualified name is nonempty, has every `':'` inside a `"::"`
pair, and consists only of regex-allowed characters and `':'`, `'<'`, `'>'`
(so nested namespaces and single-parameter generics are covered); names
containing other characters — such as the `", "` separating multiple generic
arguments — can escape the pattern. -/
theorem claim_c3_name_regex (d : TypeDescriptor) (h0 : d.type_name ≠ "")
    (h1 : colonsPaired d.type_name.data = true)
    (h2 : ∀ c ∈ d.type_name.data, sourceChar c = true) :
    matchesNameRegex (get_schema d).name = true := by
  have hdata : d.type_name.data ≠ [] := by
    intro hnil
    exact h0 (String.ext hnil)
  have hmid := replaceColons_chars d.type_name.data h1 h2
  have hlt := replaceChar_chars '<' (fun c => nameChar c || c == '>') (by decide)
      (replaceColons d.type_name.data)
      (fun c hc => by
        have hm := hmid c hc
        simp only [midChar, Bool.or_eq_true, beq_iff_eq] at hm
        simp only [Bool.or_eq_true, beq_iff_eq]
        tauto)
  have hgt := replaceChar_chars '>' nameChar (by decide)
      (replaceChar '<' (replaceColons d.type_name.data))
      (fun c hc => by
        have hl := hlt c hc
        simp only [Bool.or_eq_true, beq_iff_eq] at hl
        tauto)
  have hne : replaceColons d.type_name.data ≠ [] := replaceColons_ne_nil _ hdata
  have hne2 : replaceChar '>' (replaceChar '<' (replaceColons d.type_name.data)) ≠ [] := by
    simp only [replaceChar, ne_eq, List.map_eq_nil_iff]
    exact hne
  have hfinal : matchesNameRegex
      (String.mk (replaceChar '>' (replaceChar '<' (replaceColons d.type_name.data)))) = true := by
    simp only [matchesNameRegex, Bool.and_eq_true, Bool.not_eq_true', List.all_eq_true]
    exact ⟨by simpa [List.isEmpty_iff] using hne2, hgt⟩
  simpa [get_schema, sanitizeName] using hfinal

/-- Claim C3 witness: the amended statement at the repository's own test type
`llm_structured_outputs::tests::SimpleResponseSchema`. -/
theorem claim_c3_name_regex_witness :
    descSimple.type_name ≠ "" ∧ colonsPaired descSimple.type_name.data = true ∧
      (∀ c ∈ descSimple.type_name.data, sourceChar c = true) ∧
      matchesNameRegex (get_schema descSimple).name = true :=
  ⟨by decide, by decide, by decide,
    claim_c3_name_regex descSimple (by decide) (by decide) (by decide)⟩

/-- Claim C4: on every non-success HTTP status, `query_openai_inner` fails
with the upstream error message that carries the HTTP status and ends with
the raw response body, verbatim and untruncated. -/
theorem claim_c4_upstream_error (cfg : Config) (messages : List Message) (schema : Schema)
    (status : Nat) (body : String) (h400 : 400 ≤ status) (h599 : status ≤ 599) :
    query_openai_inner cfg (fun _ => TransportOutcome.response status body) messages schema
      = Except.error
          ("Error querying api: " ++ statusErrorText status ++ "\nRaw output:\n" ++ body) := by
  have hs : isErrorStatus status = true := by
    simp only [isErrorStatus, Bool.and_eq_true, decide_eq_true_eq]
    exact ⟨h400, h599⟩
  simp [query_openai_inner, processResponse, hs, upstreamErrorMessage]

/-- Claim C4 witness: the theorem at scenario C, HTTP 400 with the provider's
schema-rejection body, captured exactly. -/
theorem claim_c4_upstream_error_witness :
    400 ≤ 400 ∧ 400 ≤ 599 ∧
      query_openai_inner cfgExample (fun _ => TransportOutcome.response 400 scenarioCBody)
        messagesExample (get_schema descSimple)
        = Except.error
            ("Error querying api: " ++ statusErrorText 400 ++ "\nRaw output:\n" ++ scenarioCBody) :=
  ⟨by decide, by decide,
    claim_c4_upstream_error cfgExample messagesExample (get_schema descSimple) 400 scenarioCBody
      (by decide) (by decide)⟩

/-- Claim C5 counterexample: the distinct fully qualified names
`llm_structured_outputs::a::B` and `llm_structured_outputs::a_B` receive the
same schema name, because `"::"` is replaced by `"_"`. -/
theorem claim_c5_counterexample :
    ¬ descModuleB.type_name = descFlatB.type_name ∧
      (get_schema descModuleB).name = (get_schema descFlatB).name :=
  ⟨by decide, rfl⟩

/-- Claim C5 amended: two derived schema names coincide exactly when the
sanitized fully qualified names coincide; distinctness of the fully qualified
names alone does not guarantee distinct schema names. -/
theorem claim_c5_names_iff_sanitized (d1 d2 : TypeDescriptor) :
    (get_schema d1).name = (get_schema d2).name ↔
      sanitizeName d1.type_name = sanitizeName d2.type_name :=
  Iff.rfl

/-- Claim C6 counterexample: for a descriptor whose generated document
carries the root-level `"title"` the generator derives from the type name,
the schema returned by `get_schema` still has a root-level `"title"` key —
only `"format"` is stripped. -/
theorem claim_c6_counterexample :
    rootHasKey "title" (get_schema descSimple).schema = true := rfl

/-- Claim C6 amended: `get_schema` neither adds nor removes a root-level
`"title"`: the returned document has one exactly when the generated document
has one (this implementation's policy keeps the generator's title). -/
theorem claim_c6_title_preserved (d : TypeDescriptor) :
    rootHasKey "title" (get_schema d).schema = rootHasKey "title" d.genSchema := by
  simpa [get_schema] using rootHasKey_stripFormat "title" (by decide) d.genSchema

/-- Claim C7 counterexample: on a transport failure, `query_openai` panics
through `.expect("Response from OpenAI")` (whose message carries the error's
rendering) instead of returning a typed error value to the caller. -/
theorem claim_c7_counterexample :
    query_openai cfgExample (fun _ => TransportOutcome.failed "connection refused")
      descSimple decodeNothing messagesExample
      = RunResult.panicked "Response from OpenAI: connection refused" := rfl

/-- Claim C7 amended: `query_openai_inner` surfaces each post-startup failure
(transport failure, non-success status, malformed or empty envelope) as a
returned error value, and `query_openai` turns every such error into a panic
carrying that error's text — nothing is silently swallowed, but the failure
aborts through `expect` rather than reaching the caller as a typed error. -/
theorem claim_c7_inner_error_panics (cfg : Config)
    (transport : OpenAIChatCompletionQuery → TransportOutcome) (d : TypeDescriptor)
    {T : Type} (decode : String → Option T) (messages : List Message) (e : String)
    (h : query_openai_inner cfg transport messages (get_schema d) = Except.error e) :
    query_openai cfg transport d decode messages
      = RunResult.panicked ("Response from OpenAI: " ++ e) := by
  simp [query_openai, h]

/-- Claim C7 witness: the amended statement at a concrete transport
failure. -/
theorem claim_c7_inner_error_panics_witness :
    query_openai_inner cfgExample (fun _ => TransportOutcome.failed "connection refused")
        messagesExample (get_schema descSimple) = Except.error "connection refused" ∧
      query_openai cfgExample (fun _ => TransportOutcome.failed "connection refused")
        descSimple decodeNothing messagesExample
        = RunResult.panicked ("Response from OpenAI: " ++ "connection refused") :=
  ⟨rfl, claim_c7_inner_error_panics cfgExample _ descSimple decodeNothing messagesExample
    "connection refused" rfl⟩

/-- Claim C8: the request built by `query_openai_inner` uses the process-wide
configured model, the string `"json_schema"` as the response-format type, the
supplied schema, and the caller's messages unchanged (an empty sequence
included); and the transport is invoked exactly on that built request. -/
theorem claim_c8_request_fields (cfg : Config) (messages : List Message) (schema : Schema)
    (transport : OpenAIChatCompletionQuery → TransportOutcome) :
    (mkQuery cfg messages schema).model = cfg.model ∧
      (mkQuery cfg messages schema).response_format.response_type = "json_schema" ∧
      (mkQuery cfg messages schema).response_format.json_schema = schema ∧
      (mkQuery cfg messages schema).messages = messages ∧
      (mkQuery cfg [] schema).messages = [] ∧
      query_openai_inner cfg transport messages schema
        = processResponse (transport (mkQuery cfg messages schema)) :=
  ⟨rfl, rfl, rfl, rfl, rfl, rfl⟩

/-- Claim C9: the `strict` field of every derived schema is `true`. -/
theorem claim_c9_strict_true (d : TypeDescriptor) : (get_schema d).strict = true := rfl

/-- Claim C10: `get_schema` is deterministic — any two results of deriving the
schema of the same type agree in the name, the document and the strict flag
(the embedding is a pure function of the type descriptor; the source performs
no I/O and reads no mutable state in `get_schema`). -/
theorem claim_c10_deterministic (d : TypeDescriptor) (s1 s2 : Schema)
    (h1 : s1 = get_schema d) (h2 : s2 = get_schema d) :
    s1.name = s2.name ∧ s1.schema = s2.schema ∧ s1.strict = s2.strict := by
  subst h1
  subst h2
  exact ⟨rfl, rfl, rfl⟩

/-- Claim C10 witness: two evaluations at the test type's descriptor. -/
theorem claim_c10_deterministic_witness :
    get_schema descSimple = get_schema descSimple ∧
      get_schema descSimple = get_schema descSimple ∧
      ((get_schema descSimple).name = (get_schema descSimple).name ∧
        (get_schema descSimple).schema = (get_schema descSimple).schema ∧
        (get_schema descSimple).strict = (get_schema descSimple).strict) :=
  ⟨rfl, rfl, claim_c10_deterministic descSimple (get_schema descSimple)
    (get_schema descSimple) rfl rfl⟩
